import Mathlib

/-!
# Verification of the API Gateway Lambda authorizer

Shallow embedding of `src/lambda/authorizer/index.py`:

* `get_ssm_json` models `_get_ssm_json` (the TTL-cached SSM mapping loader),
  with the outcome of the single I/O attempt (`ssm_client.get_parameter` +
  `json.loads`) passed in as an `Except` value and time passed as a natural
  number of seconds.
* `validate_token` models `_validate_token`; the cryptographic part
  (JWKS lookup, RS256 signature check, expiry check performed by
  `jwt.decode`) is abstracted as a `decode` function returning the claims
  or an error, while the `token_use` check is embedded directly.
* `build_policy` models `_build_policy`; the policy dictionary becomes the
  `Policy` structure, where an `Option` field being `none` models the
  corresponding key being absent from the Python dict, and the `context`
  dict (which can only ever hold the key `tenant_id`) becomes the
  `context_tenant_id` field.
* `lambda_handler` models `lambda_handler`; Python dictionaries loaded from
  SSM become association lists, `raise Exception("Unauthorized")` becomes
  `Except.error "Unauthorized"`, and a returned policy becomes `Except.ok`.
-/

namespace Authorizer

/-- Decoded JWT claims: the three fields the authorizer reads
(`client_id`, `sub`, `token_use`).  `none` models an absent key in the
Python claims dict. -/
structure Claims where
  client_id : Option String
  sub : Option String
  token_use : Option String
deriving Repr, DecidableEq

/-- The incoming TOKEN-authorizer event: the two fields the handler reads.
`none` models an absent key, so `event.get("authorizationToken", "")`
becomes `authorizationToken.getD ""`. -/
structure AuthEvent where
  authorizationToken : Option String
  methodArn : Option String
deriving Repr, DecidableEq

/-- The authorizer response built by `_build_policy`.  `effect` and the
fixed parts of the policy document are kept; `usageIdentifierKey = none`
models the key being absent from the response dict, and
`context_tenant_id = none` models the `context` dict being empty. -/
structure Policy where
  principalId : String
  effect : String
  resource : String
  usageIdentifierKey : Option String
  context_tenant_id : Option String
deriving Repr, DecidableEq

/-- Python truthiness of an optional string value: `None` and `""` are
falsy, every other string is truthy. -/
def truthy : Option String → Bool
  | none => false
  | some s => s != ""

/-! Character-level embeddings of the Python string primitives the
authorizer uses (`str.split` with a one-character separator, `str.lower`,
`str.startswith`, slicing).  They are structurally recursive so that they
evaluate on concrete inputs. -/

/-- `str.split(sep)` for a one-character separator, accumulating the
current field in `acc` (kept reversed). -/
def split_on_char (sep : Char) : List Char → List Char → List (List Char)
  | [], acc => [acc.reverse]
  | c :: cs, acc =>
    if c == sep then acc.reverse :: split_on_char sep cs []
    else split_on_char sep cs (c :: acc)

/-- `s.split(sep)` for a one-character separator `sep`. -/
def split_on (s : String) (sep : Char) : List String :=
  (split_on_char sep s.data []).map String.mk

/-- `sep.join(parts)`. -/
def join_sep (sep : String) : List String → String
  | [] => ""
  | [s] => s
  | s :: rest => s ++ sep ++ join_sep sep rest

/-- `s.lower()` (ASCII case folding, which is all the authorizer needs for
the `"bearer "` scheme test). -/
def lower (s : String) : String :=
  String.mk (s.data.map Char.toLower)

/-- `s.startswith(pat)` on character lists. -/
def starts_with_chars : List Char → List Char → Bool
  | _, [] => true
  | [], _ :: _ => false
  | c :: cs, p :: ps => c == p && starts_with_chars cs ps

/-- `s.startswith(pat)`. -/
def starts_with (s pat : String) : Bool :=
  starts_with_chars s.data pat.data

/-- `s[n:]`. -/
def str_drop (s : String) (n : Nat) : String :=
  String.mk (s.data.drop n)

/-- The in-memory SSM cache cell: `{"data": {...}, "expires_at": t}`.
The JSON object is an association list and the time a natural number of
seconds. -/
structure MapCache where
  data : List (String × String)
  expires_at : Nat
deriving Repr, DecidableEq

/-- `_CACHE_TTL_SECONDS = 300`. -/
def CACHE_TTL_SECONDS : Nat := 300

/-- Embeds `_get_ssm_json(path, cache)`.  `load` is the outcome of the one
`ssm_client.get_parameter` + `json.loads` attempt this call would make and
`now` is `time.time()`.  Returns the value returned to the caller, the
cache state after the call, and whether a load was attempted. -/
def get_ssm_json (load : Except String (List (String × String))) (now : Nat)
    (cache : MapCache) : List (String × String) × MapCache × Bool :=
  if cache.data ≠ [] ∧ now < cache.expires_at then
    (cache.data, cache, false)
  else
    match load with
    | .error _ => ((if cache.data ≠ [] then cache.data else []), cache, true)
    | .ok data => (data, ⟨data, now + CACHE_TTL_SECONDS⟩, true)

/-- Embeds `_validate_token`.  `decode` abstracts the JWKS key resolution
and `jwt.decode` call (signature and expiry verification); the
`token_use != "access"` check is embedded directly. -/
def validate_token (decode : String → Except String Claims) (token : String) :
    Except String Claims := do
  let claims ← decode token
  if claims.token_use ≠ some "access" then
    throw "token_use must be access"
  else
    pure claims

/-- Embeds the resource-ARN rewriting at the top of `_build_policy`:
split on `":"`; when there are at least six segments, keep the first five,
take the part of the sixth before its first `"/"`, and append `"/*"`. -/
def wildcard_resource (resource : String) : String :=
  let arn_parts := split_on resource ':'
  if arn_parts.length ≥ 6 then
    let api_part := (split_on ((arn_parts.drop 5).headD "") '/').headD ""
    join_sep ":" (arn_parts.take 5) ++ ":" ++ api_part ++ "/*"
  else
    resource

/-- Embeds `_build_policy(principal_id, effect, resource, usage_key,
tenant_id)`: the `usageIdentifierKey` key is set only when `usage_key` is
truthy, and `context["tenant_id"]` only when `tenant_id` is truthy. -/
def build_policy (principal_id effect resource : String)
    (usage_key : Option String := none) (tenant_id : Option String := none) :
    Policy :=
  { principalId := principal_id
    effect := effect
    resource := wildcard_resource resource
    usageIdentifierKey := if truthy usage_key then usage_key else none
    context_tenant_id := if truthy tenant_id then tenant_id else none }

/-- The Bearer-scheme stripping in `lambda_handler`:
`if token_str.lower().startswith("bearer "): token_str = token_str[7:]`. -/
def strip_bearer (token_str : String) : String :=
  if starts_with (lower token_str) "bearer " then str_drop token_str 7
  else token_str

/-- The caller-identity extraction in `lambda_handler`:
`claims.get("client_id") or claims.get("sub", "")` under Python
truthiness. -/
def extract_client_id (claims : Claims) : String :=
  let c := claims.client_id.getD ""
  if c != "" then c else claims.sub.getD ""

/-- Embeds `lambda_handler`.  `decode` abstracts token cryptography (see
`validate_token`), and the two association lists are the mappings returned
by `_get_client_tenant_map()` and `_get_tenant_api_key_map()` at this
request.  `Except.error "Unauthorized"` models
`raise Exception("Unauthorized")`. -/
def lambda_handler (decode : String → Except String Claims)
    (client_tenant_map tenant_api_key_map : List (String × String))
    (event : AuthEvent) : Except String Policy :=
  let token_str := strip_bearer (event.authorizationToken.getD "")
  let method_arn := event.methodArn.getD "*"
  if token_str = "" then
    .error "Unauthorized"
  else
    match validate_token decode token_str with
    | .error _ => .error "Unauthorized"
    | .ok claims =>
      let client_id := extract_client_id claims
      let tenant_id := List.lookup client_id client_tenant_map
      if truthy tenant_id = false then
        .ok (build_policy (if client_id != "" then client_id else "unknown")
          "Deny" method_arn)
      else
        let tid := tenant_id.getD ""
        let api_key_value := List.lookup tid tenant_api_key_map
        if truthy api_key_value = false then
          .ok (build_policy tid "Deny" method_arn)
        else
          .ok (build_policy tid "Allow" method_arn api_key_value tenant_id)

/-- The resource pattern as the specification's words describe it: the
input ARN truncated to the whole stage segment (the API identifier and the
stage, i.e. the first two slash-separated parts of the sixth
colon-separated segment) followed by `/*`.  Stated only to compare with
`wildcard_resource`, which is what the source computes. -/
def spec_stage_wildcard (resource : String) : String :=
  let arn_parts := split_on resource ':'
  let stage_part := join_sep "/"
    ((split_on ((arn_parts.drop 5).headD "") '/').take 2)
  join_sep ":" (arn_parts.take 5) ++ ":" ++ stage_part ++ "/*"

/-! ## Helper lemmas -/

theorem mk_data (s : String) : String.mk s.data = s := by
  cases s
  rfl

theorem split_on_char_of_not_mem (sep : Char) (l acc : List Char)
    (h : sep ∉ l) : split_on_char sep l acc = [acc.reverse ++ l] := by
  induction l generalizing acc with
  | nil => simp [split_on_char]
  | cons c cs ih =>
    simp only [List.mem_cons, not_or] at h
    have hc : (c == sep) = false := by
      simp [Ne.symm h.1]
    simp [split_on_char, hc, ih (c :: acc) h.2]

theorem split_on_char_append (sep : Char) (l1 l2 acc : List Char)
    (h : sep ∉ l1) :
    split_on_char sep (l1 ++ sep :: l2) acc =
      (acc.reverse ++ l1) :: split_on_char sep l2 [] := by
  induction l1 generalizing acc with
  | nil => simp [split_on_char]
  | cons c cs ih =>
    simp only [List.mem_cons, not_or] at h
    have hc : (c == sep) = false := by
      simp [Ne.symm h.1]
    simp [split_on_char, hc, ih (c :: acc) h.2]

/-- Splitting on `sep` undoes joining with a one-character separator
string, provided no part contains the separator. -/
theorem split_on_join (sepStr : String) (sep : Char)
    (hsep : sepStr.data = [sep]) (parts : List String) (hne : parts ≠ [])
    (h : ∀ p ∈ parts, sep ∉ p.data) :
    split_on (join_sep sepStr parts) sep = parts := by
  induction parts with
  | nil => exact absurd rfl hne
  | cons p rest ih =>
    cases rest with
    | nil =>
      simp only [join_sep, split_on]
      rw [split_on_char_of_not_mem sep _ [] (h p (by simp))]
      simp [mk_data]
    | cons q qs =>
      have hdata : (p ++ sepStr ++ join_sep sepStr (q :: qs)).data =
          p.data ++ sep :: (join_sep sepStr (q :: qs)).data := by
        simp [String.data_append, hsep]
      simp only [join_sep, split_on]
      rw [hdata, split_on_char_append sep _ _ [] (h p (by simp))]
      have ihq := ih (by simp) (fun x hx => h x (List.mem_cons_of_mem p hx))
      simp only [split_on] at ihq
      simp [mk_data, ihq]

theorem truthy_eq_true_iff (o : Option String) :
    truthy o = true ↔ ∃ s, o = some s ∧ s ≠ "" := by
  cases o <;> simp [truthy]

theorem truthy_eq_false_iff (o : Option String) :
    truthy o = false ↔ o = none ∨ o = some "" := by
  cases o <;> simp [truthy]

/-- Unfolding of `lambda_handler` once the credential is non-empty and the
token validated successfully. -/
theorem lambda_handler_valid (decode : String → Except String Claims)
    (ctm takm : List (String × String)) (ev : AuthEvent) (claims : Claims)
    (hne : strip_bearer (ev.authorizationToken.getD "") ≠ "")
    (hval : validate_token decode (strip_bearer (ev.authorizationToken.getD ""))
      = .ok claims) :
    lambda_handler decode ctm takm ev =
      (let client_id := extract_client_id claims
       let tenant_id := List.lookup client_id ctm
       if truthy tenant_id = false then
         .ok (build_policy (if client_id != "" then client_id else "unknown")
           "Deny" (ev.methodArn.getD "*"))
       else
         let tid := tenant_id.getD ""
         let api_key_value := List.lookup tid takm
         if truthy api_key_value = false then
           .ok (build_policy tid "Deny" (ev.methodArn.getD "*"))
         else
           .ok (build_policy tid "Allow" (ev.methodArn.getD "*")
             api_key_value tenant_id)) := by
  simp only [lambda_handler, if_neg hne, hval]

/-! ## Claims -/

/-- C3, counterexample: on a fully qualified method ARN the code truncates
at the API identifier (covering every stage), not at the stage segment as
the claim states. -/
theorem c3_counterexample :
    wildcard_resource
        "arn:aws:execute-api:us-east-1:123456789012:a1b2c3/prod/GET/orders" =
      "arn:aws:execute-api:us-east-1:123456789012:a1b2c3/*" ∧
    spec_stage_wildcard
        "arn:aws:execute-api:us-east-1:123456789012:a1b2c3/prod/GET/orders" =
      "arn:aws:execute-api:us-east-1:123456789012:a1b2c3/prod/*" ∧
    wildcard_resource
        "arn:aws:execute-api:us-east-1:123456789012:a1b2c3/prod/GET/orders" ≠
      spec_stage_wildcard
        "arn:aws:execute-api:us-east-1:123456789012:a1b2c3/prod/GET/orders" := by
  refine ⟨rfl, rfl, ?_⟩
  decide

/-- C3 (amended): for a resource ARN with at least six colon-separated
segments, the produced grant keeps the first five segments and only the
part of the sixth segment before its first slash (the API identifier),
followed by `/*` — so the grant covers the whole API, across all stages. -/
theorem c3_wildcard_truncates_at_api_id (pre : List String) (api rest : String)
    (post : List String) (h5 : pre.length = 5)
    (hnc : ∀ p ∈ pre ++ (api ++ "/" ++ rest) :: post, ':' ∉ p.data)
    (hs : '/' ∉ api.data) :
    wildcard_resource (join_sep ":" (pre ++ (api ++ "/" ++ rest) :: post)) =
      join_sep ":" pre ++ ":" ++ api ++ "/*" := by
  have hparts := split_on_join ":" ':' rfl
    (pre ++ (api ++ "/" ++ rest) :: post) (by simp) hnc
  have hlen : (pre ++ (api ++ "/" ++ rest) :: post).length ≥ 6 := by
    simp only [List.length_append, List.length_cons, h5]
    omega
  have hseg : (api ++ "/" ++ rest).data = api.data ++ '/' :: rest.data := by
    simp [String.data_append]
  have hsplit6 : (split_on (api ++ "/" ++ rest) '/').head?.getD "" = api := by
    simp only [split_on, hseg]
    rw [split_on_char_append '/' _ _ [] hs]
    simp [mk_data]
  simp only [wildcard_resource, hparts]
  rw [if_pos hlen, List.drop_left' h5, List.take_left' h5]
  simp [hsplit6]

theorem c3_witness :
    wildcard_resource (join_sep ":"
        ["arn", "aws", "execute-api", "eu-west-1", "42",
          "apiX" ++ "/" ++ "beta/POST/items"]) =
      join_sep ":" ["arn", "aws", "execute-api", "eu-west-1", "42"] ++ ":" ++
        "apiX" ++ "/*" :=
  c3_wildcard_truncates_at_api_id
    ["arn", "aws", "execute-api", "eu-west-1", "42"] "apiX" "beta/POST/items"
    [] rfl (by decide) (by decide)

/-- C7: when a refresh is attempted and the load fails, the cache returns
the previously loaded data (empty when nothing was ever loaded) and the
cache cell — data and expiry alike — is unchanged, so the next call
retries. -/
theorem c7_failed_refresh_serves_stale (e : String) (now : Nat)
    (cache : MapCache) (h : ¬(cache.data ≠ [] ∧ now < cache.expires_at)) :
    get_ssm_json (.error e) now cache = (cache.data, cache, true) := by
  unfold get_ssm_json
  rw [if_neg h]
  split <;> simp_all

theorem c7_witness :
    get_ssm_json (.error "timeout") 80 ⟨[("k", "v")], 60⟩ =
      ([("k", "v")], ⟨[("k", "v")], 60⟩, true) :=
  c7_failed_refresh_serves_stale "timeout" 80 ⟨[("k", "v")], 60⟩ (by decide)

/-- C8: a non-empty cache strictly before expiry is served with no load
attempted; otherwise a load is attempted, and a successful load replaces
the data and sets the expiry to the current time plus 300 seconds. -/
theorem c8_cache_round_trip (load : Except String (List (String × String)))
    (now : Nat) (cache : MapCache) :
    (cache.data ≠ [] ∧ now < cache.expires_at →
      get_ssm_json load now cache = (cache.data, cache, false)) ∧
    (¬(cache.data ≠ [] ∧ now < cache.expires_at) →
      (get_ssm_json load now cache).2.2 = true ∧
      ∀ m, load = .ok m →
        get_ssm_json load now cache = (m, ⟨m, now + 300⟩, true)) := by
  refine ⟨fun h => ?_, fun h => ⟨?_, fun m hm => ?_⟩⟩
  · unfold get_ssm_json
    rw [if_pos h]
  · unfold get_ssm_json
    rw [if_neg h]
    cases load <;> simp
  · subst hm
    unfold get_ssm_json
    rw [if_neg h]
    rfl

/-- C1, counterexample: a syntactically parseable request whose token has
`token_use = "id"` (failing the access-marker check, with signature and
expiry otherwise fine) makes the entry point raise `Unauthorized` — it
does not return a Deny decision object. -/
theorem c1_counterexample :
    lambda_handler (fun _ => .ok ⟨some "cid1", none, some "id"⟩)
        [("cid1", "t1")] [("t1", "k1")]
        ⟨some "Bearer tok1", some "arn:aws:execute-api:us-east-1:1:a1/s/GET/p"⟩ =
      .error "Unauthorized" ∧
    (lambda_handler (fun _ => .ok ⟨some "cid1", none, some "id"⟩)
        [("cid1", "t1")] [("t1", "k1")]
        ⟨some "Bearer tok1", some "arn:aws:execute-api:us-east-1:1:a1/s/GET/p"⟩).isOk
      = false :=
  ⟨rfl, rfl⟩

/-- C1 (amended): whenever the extracted credential is non-empty but token
validation fails (bad signature, expired timestamp, or non-access
token-type), the entry point raises the terminal `Unauthorized` fault —
the same signal as a missing credential — and returns no decision
object. -/
theorem c1_validation_failure_raises (decode : String → Except String Claims)
    (ctm takm : List (String × String)) (ev : AuthEvent) (e : String)
    (hne : strip_bearer (ev.authorizationToken.getD "") ≠ "")
    (hval : validate_token decode (strip_bearer (ev.authorizationToken.getD ""))
      = .error e) :
    lambda_handler decode ctm takm ev = .error "Unauthorized" := by
  simp only [lambda_handler, if_neg hne, hval]

theorem c1_witness :
    lambda_handler (fun _ => .error "bad signature") [] []
        ⟨some "Bearer w1", some "arn:aws:execute-api:us-east-1:1:w1/s/GET/p"⟩ =
      .error "Unauthorized" :=
  c1_validation_failure_raises (fun _ => .error "bad signature") [] []
    ⟨some "Bearer w1", some "arn:aws:execute-api:us-east-1:1:w1/s/GET/p"⟩
    "bad signature" (by decide) rfl

/-- C2, counterexample: with caller `c2client` mapped to `tenantB` and
`tenantB` absent from the tenant→rate-limit-key mapping, the decision is
Deny with principal `tenantB` but with an empty context — the tenant
identifier is NOT present in the context map. -/
theorem c2_counterexample :
    lambda_handler (fun _ => .ok ⟨some "c2client", none, some "access"⟩)
        [("c2client", "tenantB")] []
        ⟨some "Bearer tok2",
          some "arn:aws:execute-api:us-east-1:111:apiB/dev/GET/x"⟩ =
      .ok { principalId := "tenantB", effect := "Deny",
            resource := "arn:aws:execute-api:us-east-1:111:apiB/*",
            usageIdentifierKey := none, context_tenant_id := none } :=
  rfl

/-- C2 (amended): when the caller resolves to a tenant that is absent from
(or maps to a falsy value in) the tenant→rate-limit-key mapping, the
decision is Deny with principal equal to the tenant identifier, no
rate-limit key, and no tenant identifier in the context map. -/
theorem c2_unmapped_tenant_denies (decode : String → Except String Claims)
    (ctm takm : List (String × String)) (ev : AuthEvent) (claims : Claims)
    (t : String)
    (hne : strip_bearer (ev.authorizationToken.getD "") ≠ "")
    (hval : validate_token decode (strip_bearer (ev.authorizationToken.getD ""))
      = .ok claims)
    (ht : List.lookup (extract_client_id claims) ctm = some t) (htn : t ≠ "")
    (hk : truthy (List.lookup t takm) = false) :
    lambda_handler decode ctm takm ev =
      .ok { principalId := t, effect := "Deny",
            resource := wildcard_resource (ev.methodArn.getD "*"),
            usageIdentifierKey := none, context_tenant_id := none } := by
  rw [lambda_handler_valid decode ctm takm ev claims hne hval]
  simp only [ht, Option.getD_some]
  rw [if_neg (by simp [truthy, htn]), hk]
  simp [build_policy, truthy]

theorem c2_witness :
    lambda_handler (fun _ => .ok ⟨some "w2c", none, some "access"⟩)
        [("w2c", "w2t")] []
        ⟨some "Bearer w2", some "arn:p2:q2:r2:s2:api2/st2/GET/z"⟩ =
      .ok { principalId := "w2t", effect := "Deny",
            resource := "arn:p2:q2:r2:s2:api2/*",
            usageIdentifierKey := none, context_tenant_id := none } :=
  c2_unmapped_tenant_denies (fun _ => .ok ⟨some "w2c", none, some "access"⟩)
    [("w2c", "w2t")] [] ⟨some "Bearer w2", some "arn:p2:q2:r2:s2:api2/st2/GET/z"⟩
    ⟨some "w2c", none, some "access"⟩ "w2t" (by decide) rfl rfl (by decide) rfl

/-- C4: every decision the entry point returns satisfies the invariant:
Allow carries a non-empty usage key and a non-empty tenant identifier in
context; Deny carries no usage key. -/
theorem c4_decision_invariant (decode : String → Except String Claims)
    (ctm takm : List (String × String)) (ev : AuthEvent) (p : Policy)
    (h : lambda_handler decode ctm takm ev = .ok p) :
    (p.effect = "Allow" →
      (∃ k, p.usageIdentifierKey = some k ∧ k ≠ "") ∧
      (∃ t, p.context_tenant_id = some t ∧ t ≠ "")) ∧
    (p.effect = "Deny" → p.usageIdentifierKey = none) := by
  simp only [lambda_handler] at h
  split at h
  · simp at h
  · split at h
    · simp at h
    · rename_i claims hv
      split at h
      · injection h with h
        subst h
        refine ⟨fun hA => absurd hA (by simp [build_policy]), fun _ => ?_⟩
        simp [build_policy, truthy]
      · rename_i hten
        split at h
        · injection h with h
          subst h
          refine ⟨fun hA => absurd hA (by simp [build_policy]), fun _ => ?_⟩
          simp [build_policy, truthy]
        · rename_i hkey
          injection h with h
          subst h
          refine ⟨fun _ => ?_, fun hD => absurd hD (by simp [build_policy])⟩
          rcases Bool.dichotomy
              (truthy (List.lookup (extract_client_id claims) ctm)) with hb | hb
          · exact absurd hb hten
          rcases Bool.dichotomy (truthy (List.lookup
              ((List.lookup (extract_client_id claims) ctm).getD "") takm)) with
            hc | hc
          · exact absurd hc hkey
          obtain ⟨t, htEq, htn⟩ := (truthy_eq_true_iff _).1 hb
          obtain ⟨k, hkEq, hkn⟩ := (truthy_eq_true_iff _).1 hc
          exact ⟨⟨k, by simp [build_policy, hkEq, truthy, hkn], hkn⟩,
            ⟨t, by simp [build_policy, htEq, truthy, htn], htn⟩⟩

theorem c4_witness :
    ((("Allow" : String) = "Allow" →
      (∃ k, (some "key-789" : Option String) = some k ∧ k ≠ "") ∧
      (∃ t, (some "tenantA" : Option String) = some t ∧ t ≠ "")) ∧
    (("Allow" : String) = "Deny" →
      (some "key-789" : Option String) = none)) :=
  c4_decision_invariant (fun _ => .ok ⟨some "abc123", none, some "access"⟩)
    [("abc123", "tenantA")] [("tenantA", "key-789")]
    ⟨some "Bearer tokA", some "arn:aws:execute-api:us-east-1:111:apiA/prod/GET/x"⟩
    ⟨"tenantA", "Allow", "arn:aws:execute-api:us-east-1:111:apiA/*",
      some "key-789", some "tenantA"⟩ rfl

/-- C5: for a valid token whose caller maps to a tenant and whose tenant
maps to a rate-limit key, the decision is Allow with principal the tenant
identifier, exactly that key as the usage key, and the tenant identifier
in context. -/
theorem c5_allow_path (decode : String → Except String Claims)
    (ctm takm : List (String × String)) (ev : AuthEvent) (claims : Claims)
    (t k : String)
    (hne : strip_bearer (ev.authorizationToken.getD "") ≠ "")
    (hval : validate_token decode (strip_bearer (ev.authorizationToken.getD ""))
      = .ok claims)
    (ht : List.lookup (extract_client_id claims) ctm = some t) (htn : t ≠ "")
    (hk : List.lookup t takm = some k) (hkn : k ≠ "") :
    lambda_handler decode ctm takm ev =
      .ok { principalId := t, effect := "Allow",
            resource := wildcard_resource (ev.methodArn.getD "*"),
            usageIdentifierKey := some k, context_tenant_id := some t } := by
  rw [lambda_handler_valid decode ctm takm ev claims hne hval]
  simp only [ht, Option.getD_some]
  rw [if_neg (by simp [truthy, htn]), hk, if_neg (by simp [truthy, hkn])]
  simp [build_policy, truthy, htn, hkn]

theorem c5_witness :
    lambda_handler (fun _ => .ok ⟨none, some "subW5", some "access"⟩)
        [("subW5", "t5")] [("t5", "key5")]
        ⟨some "bEaReR w5", some "arn:p5:q5:r5:s5:api5/st5/GET/z"⟩ =
      .ok { principalId := "t5", effect := "Allow",
            resource := "arn:p5:q5:r5:s5:api5/*",
            usageIdentifierKey := some "key5", context_tenant_id := some "t5" } :=
  c5_allow_path (fun _ => .ok ⟨none, some "subW5", some "access"⟩)
    [("subW5", "t5")] [("t5", "key5")]
    ⟨some "bEaReR w5", some "arn:p5:q5:r5:s5:api5/st5/GET/z"⟩
    ⟨none, some "subW5", some "access"⟩ "t5" "key5"
    (by decide) rfl rfl (by decide) rfl (by decide)

/-- C6: for a caller identity absent from the identity→tenant mapping, the
decision is Deny with principal the caller identity (or `"unknown"` when
it is empty) and with no tenant identifier in the context map. -/
theorem c6_unknown_caller_denies (decode : String → Except String Claims)
    (ctm takm : List (String × String)) (ev : AuthEvent) (claims : Claims)
    (hne : strip_bearer (ev.authorizationToken.getD "") ≠ "")
    (hval : validate_token decode (strip_bearer (ev.authorizationToken.getD ""))
      = .ok claims)
    (ht : List.lookup (extract_client_id claims) ctm = none) :
    lambda_handler decode ctm takm ev =
      .ok { principalId := if extract_client_id claims != "" then
              extract_client_id claims else "unknown",
            effect := "Deny",
            resource := wildcard_resource (ev.methodArn.getD "*"),
            usageIdentifierKey := none, context_tenant_id := none } := by
  rw [lambda_handler_valid decode ctm takm ev claims hne hval]
  simp only [ht]
  simp [build_policy, truthy]

theorem c6_witness :
    lambda_handler (fun _ => .ok ⟨some "c6id", none, some "access"⟩) [] []
        ⟨some "Bearer w6", some "arn:p6:q6:r6:s6:api6/st6/GET/z"⟩ =
      .ok { principalId := "c6id", effect := "Deny",
            resource := "arn:p6:q6:r6:s6:api6/*",
            usageIdentifierKey := none, context_tenant_id := none } :=
  c6_unknown_caller_denies (fun _ => .ok ⟨some "c6id", none, some "access"⟩)
    [] [] ⟨some "Bearer w6", some "arn:p6:q6:r6:s6:api6/st6/GET/z"⟩
    ⟨some "c6id", none, some "access"⟩ (by decide) rfl rfl

/-- C9, counterexample: a request with a NON-empty credential whose token
fails validation also raises the `Unauthorized` fault, so the
missing/empty-credential condition is not the only one producing it. -/
theorem c9_counterexample :
    strip_bearer "Bearer tok9" ≠ "" ∧
    lambda_handler (fun _ => .error "expired") [] []
        ⟨some "Bearer tok9", some "arn:aws:execute-api:us-east-1:9:a9/s9/GET/r"⟩ =
      .error "Unauthorized" :=
  ⟨by decide, rfl⟩

/-- C9 (amended): the entry point raises the `Unauthorized` fault exactly
when the credential is missing/empty after stripping the optional scheme,
OR when token validation fails; in every other case it returns a decision
object. -/
theorem c9_unauthorized_iff (decode : String → Except String Claims)
    (ctm takm : List (String × String)) (ev : AuthEvent) :
    lambda_handler decode ctm takm ev = .error "Unauthorized" ↔
      (strip_bearer (ev.authorizationToken.getD "") = "" ∨
        ∃ e, validate_token decode (strip_bearer (ev.authorizationToken.getD ""))
          = .error e) := by
  constructor
  · intro h
    by_cases hs : strip_bearer (ev.authorizationToken.getD "") = ""
    · exact Or.inl hs
    · refine Or.inr ?_
      cases hv : validate_token decode
          (strip_bearer (ev.authorizationToken.getD "")) with
      | error e => exact ⟨e, rfl⟩
      | ok claims =>
        rw [lambda_handler_valid decode ctm takm ev claims hs hv] at h
        simp only [] at h
        split at h
        · simp at h
        · split at h <;> simp at h
  · intro h
    rcases h with hs | ⟨e, he⟩
    · simp [lambda_handler, hs]
    · by_cases hs : strip_bearer (ev.authorizationToken.getD "") = ""
      · simp [lambda_handler, hs]
      · simp [lambda_handler, if_neg hs, he]

/-- C10: a mapping entry whose value is the empty string behaves exactly
like an absent entry: an empty tenant value yields the unknown-caller
Deny, and an empty rate-limit-key value yields the unmapped-tenant
Deny. -/
theorem c10_empty_value_like_absent (decode : String → Except String Claims)
    (ctm takm : List (String × String)) (ev : AuthEvent) (claims : Claims)
    (hne : strip_bearer (ev.authorizationToken.getD "") ≠ "")
    (hval : validate_token decode (strip_bearer (ev.authorizationToken.getD ""))
      = .ok claims) :
    (List.lookup (extract_client_id claims) ctm = some "" →
      lambda_handler decode ctm takm ev =
        .ok { principalId := if extract_client_id claims != "" then
                extract_client_id claims else "unknown",
              effect := "Deny",
              resource := wildcard_resource (ev.methodArn.getD "*"),
              usageIdentifierKey := none, context_tenant_id := none }) ∧
    (∀ t, List.lookup (extract_client_id claims) ctm = some t → t ≠ "" →
      List.lookup t takm = some "" →
      lambda_handler decode ctm takm ev =
        .ok { principalId := t, effect := "Deny",
              resource := wildcard_resource (ev.methodArn.getD "*"),
              usageIdentifierKey := none, context_tenant_id := none }) := by
  constructor
  · intro ht
    rw [lambda_handler_valid decode ctm takm ev claims hne hval]
    simp only [ht]
    simp [build_policy, truthy]
  · intro t ht htn hk
    rw [lambda_handler_valid decode ctm takm ev claims hne hval]
    simp only [ht, Option.getD_some]
    rw [if_neg (by simp [truthy, htn]), hk]
    simp [build_policy, truthy]

theorem c10_witness :
    lambda_handler (fun _ => .ok ⟨some "c10a", none, some "access"⟩)
        [("c10a", "")] []
        ⟨some "Bearer wa", some "arn:pa:qa:ra:sa:apiA10/st/GET/z"⟩ =
      .ok { principalId := "c10a", effect := "Deny",
            resource := "arn:pa:qa:ra:sa:apiA10/*",
            usageIdentifierKey := none, context_tenant_id := none } ∧
    lambda_handler (fun _ => .ok ⟨some "c10b", none, some "access"⟩)
        [("c10b", "t10")] [("t10", "")]
        ⟨some "Bearer wb", some "arn:pb:qb:rb:sb:apiB10/st/GET/z"⟩ =
      .ok { principalId := "t10", effect := "Deny",
            resource := "arn:pb:qb:rb:sb:apiB10/*",
            usageIdentifierKey := none, context_tenant_id := none } :=
  ⟨(c10_empty_value_like_absent (fun _ => .ok ⟨some "c10a", none, some "access"⟩)
      [("c10a", "")] [] ⟨some "Bearer wa", some "arn:pa:qa:ra:sa:apiA10/st/GET/z"⟩
      ⟨some "c10a", none, some "access"⟩ (by decide) rfl).1 rfl,
    (c10_empty_value_like_absent (fun _ => .ok ⟨some "c10b", none, some "access"⟩)
      [("c10b", "t10")] [("t10", "")]
      ⟨some "Bearer wb", some "arn:pb:qb:rb:sb:apiB10/st/GET/z"⟩
      ⟨some "c10b", none, some "access"⟩ (by decide) rfl).2 "t10" rfl
      (by decide) rfl⟩

theorem c8_witness :
    get_ssm_json (.ok [("p", "q")]) 7 ⟨[("o", "v")], 50⟩ =
      ([("o", "v")], ⟨[("o", "v")], 50⟩, false) ∧
    get_ssm_json (.ok [("p", "q")]) 99 ⟨[("o", "v")], 50⟩ =
      ([("p", "q")], ⟨[("p", "q")], 399⟩, true) :=
  ⟨(c8_cache_round_trip (.ok [("p", "q")]) 7 ⟨[("o", "v")], 50⟩).1 (by decide),
    ((c8_cache_round_trip (.ok [("p", "q")]) 99 ⟨[("o", "v")], 50⟩).2
      (by decide)).2 [("p", "q")] rfl⟩

end Authorizer
